import Mathlib

/-!
Shallow embedding of the backend connection and request/response bridge of
the J.A.R.V.I.S desktop shell (`src/electron-app/src/main-working.js` and the
settings-window script), together with theorems settling the frozen claims
about it.  JavaScript mutable module state is modelled by explicit state
passing; asynchronous callbacks are modelled as functions over explicit event
traces; the JS number `NaN` arising from a failed `parseInt` is modelled by
`Option Int` with `none` standing for `NaN`.
-/

namespace Jarvis

/-! ## JavaScript `parseInt` and `String.trim`, as used on the sidecar port file

`startPythonBackend` executes `currentPort = parseInt(portData.trim())`.
`parseInt` with no radix skips an optional sign, honours a `0x`/`0X` hex
marker, reads the longest digit run, and yields `NaN` when no digit follows
(modelled as `none`). -/

def digitsToNat (ds : List Char) : Nat :=
  ds.foldl (fun a c => 10 * a + (c.toNat - 48)) 0

def isHexDigitCh (c : Char) : Bool :=
  c.isDigit || ('a' ≤ c && c ≤ 'f') || ('A' ≤ c && c ≤ 'F')

def hexVal (c : Char) : Nat :=
  if c.isDigit then c.toNat - 48
  else if 'a' ≤ c && c ≤ 'f' then c.toNat - 87
  else c.toNat - 55

def hexToNat (ds : List Char) : Nat :=
  ds.foldl (fun a c => 16 * a + hexVal c) 0

def jsParseIntMag (cs : List Char) : Option Nat :=
  match cs with
  | '0' :: 'x' :: t =>
      let ds := t.takeWhile isHexDigitCh
      if ds.isEmpty then none else some (hexToNat ds)
  | '0' :: 'X' :: t =>
      let ds := t.takeWhile isHexDigitCh
      if ds.isEmpty then none else some (hexToNat ds)
  | _ =>
      let ds := cs.takeWhile Char.isDigit
      if ds.isEmpty then none else some (digitsToNat ds)

def jsParseInt (cs : List Char) : Option Int :=
  match cs with
  | '-' :: t => (jsParseIntMag t).map (fun n => -(n : Int))
  | '+' :: t => (jsParseIntMag t).map (fun n => (n : Int))
  | _ => (jsParseIntMag cs).map (fun n => (n : Int))

def isJsSpace (c : Char) : Bool :=
  c == ' ' || c == '\t' || c == '\n' || c == '\r' || c == '\x0b' || c == '\x0c'

def trimChars (cs : List Char) : List Char :=
  ((cs.dropWhile isJsSpace).reverse.dropWhile isJsSpace).reverse

/-- `parseInt(portData.trim())` applied to the sidecar file's content. -/
def parseSidecarPort (portData : String) : Option Int :=
  jsParseInt (trimChars portData.data)

/-! ## Port discovery (`startPythonBackend`)

The stdout handler matches `/Auto-selected port: (\d+)/` and assigns
`currentPort = parseInt(match[1])`; after the 5-second grace delay the
sidecar file `current_port.txt`, when it exists and is readable, is read and
`currentPort = parseInt(portData.trim())` runs unconditionally on its
content.  The port variable starts at `8000`. -/

def listStartsWith : List Char → List Char → Bool
  | [], _ => true
  | _ :: _, [] => false
  | m :: ms, c :: cs => m == c && listStartsWith ms cs

def portMarker : List Char := "Auto-selected port: ".data

/-- Search a stdout chunk for the regex `/Auto-selected port: (\d+)/`:
the first occurrence of the marker that is followed by at least one digit
yields the (maximal) digit run after it. -/
def extractPortFrom : List Char → Option Nat
  | [] => none
  | c :: rest =>
      if listStartsWith portMarker (c :: rest) then
        let after := List.drop portMarker.length (c :: rest)
        let ds := after.takeWhile Char.isDigit
        if ds.isEmpty then extractPortFrom rest else some (digitsToNat ds)
      else extractPortFrom rest

def extractAutoSelectedPort (chunk : String) : Option Nat :=
  extractPortFrom chunk.data

/-- One port-affecting event during backend startup: a stdout data chunk, or
the single post-grace-delay sidecar read (`none` = file missing or read
threw, in which case the catch keeps the old port). -/
inductive PortEvent
  | stdoutData (chunk : String)
  | sidecarRead (content : Option String)
deriving DecidableEq

def applyPortEvent (port : Option Int) (e : PortEvent) : Option Int :=
  match e with
  | .stdoutData chunk =>
      match extractAutoSelectedPort chunk with
      | some n => some (n : Int)
      | none => port
  | .sidecarRead none => port
  | .sidecarRead (some content) => parseSidecarPort content

def runPortDiscovery (events : List PortEvent) : Option Int :=
  events.foldl applyPortEvent (some 8000)

/-! ## Backend process supervisor: `startPythonBackend` and `cleanup`

`startPythonBackend` runs inside a `try/catch`: when the script file is
missing it returns `false` before `spawn` is reached; when `spawn` throws,
the catch returns `false`; otherwise the handle is stored in `pythonProcess`
and the function returns `true`. -/

/-- A spawned child-process handle.  Node sets `killed` to `true` as soon as
`kill()` successfully sends a signal (it does not mean the process exited). -/
structure ProcHandle where
  killed : Bool
deriving DecidableEq

structure SpawnEnv where
  scriptExists : Bool
  /-- Result of `spawn(pythonPath, [scriptPath], ...)`: a handle, or a thrown
  error. -/
  spawnResult : Except String ProcHandle

/-- Body of the `try` block of `startPythonBackend`, as far as the claims
need it: the early-return on a missing script, then the spawn. -/
def startBackendBody (env : SpawnEnv) : Except String (Bool × Option ProcHandle) :=
  if env.scriptExists = false then Except.ok (false, none)
  else
    match env.spawnResult with
    | Except.error e => Except.error e
    | Except.ok h => Except.ok (true, some h)

/-- `startPythonBackend` with its surrounding `catch`, returning the boolean
result and the value left in the module variable `pythonProcess`. -/
def startPythonBackend (env : SpawnEnv) : Bool × Option ProcHandle :=
  match startBackendBody env with
  | Except.ok r => r
  | Except.error _ => (false, none)

/-- The module-level state `cleanup` reads and writes, plus the list of
signals sent to the backend process so far (in order). -/
structure MainState where
  pythonProcess : Option ProcHandle
  wsSome : Bool
  signalsSent : List String
deriving DecidableEq

/-- The synchronous part of `cleanup()`: closes the WebSocket, sends SIGTERM
(Node then marks the handle `killed`), schedules the force-kill timer, and
sets `pythonProcess = null` before returning. -/
def cleanupNow (s : MainState) : MainState :=
  let s1 : MainState := { s with wsSome := false }
  match s1.pythonProcess with
  | none => s1
  | some _ =>
      { s1 with
        signalsSent := s1.signalsSent ++ ["SIGTERM"]
        pythonProcess := none }

/-- The force-kill timer callback, fired 5 seconds later: it re-reads the
module variable `pythonProcess` at fire time and sends SIGKILL only when a
handle is present with `killed = false`. -/
def forceKillTimerFire (s : MainState) : MainState :=
  match s.pythonProcess with
  | some p =>
      if p.killed = false then
        { s with
          signalsSent := s.signalsSent ++ ["SIGKILL"]
          pythonProcess := some { killed := true } }
      else s
  | none => s

/-- `cleanup()` followed by the force-kill timer firing 5 seconds later. -/
def cleanupSequence (s : MainState) : MainState :=
  forceKillTimerFire (cleanupNow s)

/-! ## `sendToPython`: the guard, the outbound frame, and the settle race

The function first rejects when `!ws || ws.readyState !== WebSocket.OPEN`,
before any frame is built, any timer armed, or anything sent.  Otherwise it
arms a 30-second timeout and attaches a `message` handler that settles the
promise on the first frame that is either unparseable JSON (reject with the
parse error) or parses with `type === 'chat_response'` (resolve); the
request's freshly generated id is in scope but never consulted. -/

inductive ReadyState
  | CONNECTING
  | OPEN
  | CLOSING
  | CLOSED
deriving DecidableEq

structure ChatFrame where
  id : String
  type : String
  message : String
  timestamp : String
deriving DecidableEq

structure SendSetup where
  /-- `some msg` when the promise was rejected immediately with `msg`. -/
  rejectedWith : Option String
  framesSent : List ChatFrame
  timerArmed : Bool
deriving DecidableEq

def sendToPythonSetup (ws : Option ReadyState) (messageId msg ts : String) : SendSetup :=
  match ws with
  | none => { rejectedWith := some "WebSocket not connected", framesSent := [], timerArmed := false }
  | some st =>
      if st ≠ ReadyState.OPEN then
        { rejectedWith := some "WebSocket not connected", framesSent := [], timerArmed := false }
      else
        { rejectedWith := none
          framesSent := [{ id := messageId, type := "chat", message := msg, timestamp := ts }]
          timerArmed := true }

/-- An inbound WebSocket frame as seen by the response handler: either data
that parses as JSON with a `type` (and possibly `id`/payload) field, or data
on which `JSON.parse` throws. -/
inductive InFrame
  | valid (ty : String) (id : String) (payload : String)
  | malformed (raw : String)
deriving DecidableEq

/-- How the promise can settle. -/
inductive Settle
  | response (ty : String) (id : String) (payload : String)
  | parseError (raw : String)
  | timeout
deriving DecidableEq

/-- Whether the response handler settles the promise on this frame: it does
on every unparseable frame (the catch rejects) and on every frame whose
`type` is `chat_response`; any other parsed frame is silently ignored.  The
request's correlation id plays no role. -/
def handlerReacts : InFrame → Bool
  | .valid ty _ _ => ty == "chat_response"
  | .malformed _ => true

def settleOf : InFrame → Settle
  | .valid ty id payload => .response ty id payload
  | .malformed raw => .parseError raw

/-- The frames delivered before the 30-second deadline, a trace event being
a (milliseconds-since-send, frame) pair. -/
def framesBefore (events : List (Nat × InFrame)) : List InFrame :=
  (events.filter (fun e => decide (e.1 < 30000))).map Prod.snd

def framesAfter (events : List (Nat × InFrame)) : List InFrame :=
  (events.filter (fun e => decide (30000 ≤ e.1))).map Prod.snd

/-- Every resolve/reject call made for one chat send, in order.  If a frame
before the deadline settles, the handler detaches and the timer is cleared:
that is the only attempt.  Otherwise the timer rejects with the timeout
error at 30 s; the handler stays attached (no `ws.off` on that path), so the
first reacting frame after the deadline still calls resolve/reject once more
before detaching. -/
def settleAttempts (events : List (Nat × InFrame)) : List Settle :=
  match (framesBefore events).find? handlerReacts with
  | some f => [settleOf f]
  | none =>
      Settle.timeout ::
        (((framesAfter events).find? handlerReacts).map settleOf).toList

/-- A promise adopts only the first resolve/reject call; later calls are
no-ops. -/
def promiseOutcome (events : List (Nat × InFrame)) : Option Settle :=
  (settleAttempts events).head?

/-! ## IPC boundary handlers (`send-message`, `send-backend-request`)

Both handlers wrap their body in `try/catch` and convert any thrown error
into `{success: false, error: error.message}`.  `send-backend-request`
additionally throws `HTTP <status>: <statusText>` itself when the response
is not `ok`, before parsing the body. -/

inductive FetchOutcome
  | noImpl
  | networkError (msg : String)
  | httpResponse (ok : Bool) (status : Nat) (statusText : String)
      (body : Except String String)

inductive IpcReply
  | value (v : String)
  | failure (error : String)
deriving DecidableEq

/-- The `try` body of the `send-backend-request` handler: resolve a fetch
implementation, fetch, throw on a non-ok status, then parse the JSON body
(which may itself throw). -/
def sendBackendRequestBody (f : FetchOutcome) : Except String String :=
  match f with
  | .noImpl =>
      Except.error "No fetch implementation available. Please install node-fetch or use Node.js 18+"
  | .networkError m => Except.error m
  | .httpResponse ok status statusText body =>
      if ok then body
      else Except.error ("HTTP " ++ toString status ++ ": " ++ statusText)

def handleSendBackendRequest (f : FetchOutcome) : IpcReply :=
  match sendBackendRequestBody f with
  | Except.ok v => IpcReply.value v
  | Except.error m => IpcReply.failure m

/-- The `send-message` handler: `await sendToPython(message)` returned
as-is, any thrown/rejected error converted at the boundary. -/
def handleSendMessage (inner : Except String String) : IpcReply :=
  match inner with
  | Except.ok v => IpcReply.value v
  | Except.error m => IpcReply.failure m

/-! ## Settings sync on WebSocket open (`connectWebSocket` / `syncSettingsWithBackend`)

The `open` handler calls `syncSettingsWithBackend()`, which reads the five
preference keys from the persistent store *at call time* via `store.get` and
POSTs them to `/settings/sync-frontend`. -/

abbrev Store := List (String × String)

def storeGet (st : Store) (k dflt : String) : String :=
  match st.find? (fun p => p.1 == k) with
  | some p => p.2
  | none => dflt

def storeSet (st : Store) (k v : String) : Store :=
  (k, v) :: st.filter (fun p => p.1 != k)

/-- The payload built by `syncSettingsWithBackend` from the store it reads. -/
structure SettingsData where
  aiModel : String
  voiceEnabled : String
  autoStart : String
  backendPort : String
  theme : String
deriving DecidableEq

def settingsDataOf (st : Store) : SettingsData :=
  { aiModel := storeGet st "jarvis-ai-model" "orca-mini-3b-gguf2-q4_0.gguf"
    voiceEnabled := storeGet st "jarvis-voice-enabled" "true"
    autoStart := storeGet st "jarvis-auto-start" "false"
    backendPort := storeGet st "jarvis-backend-port" "8000"
    theme := storeGet st "jarvis-theme" "dark" }

/-- Events affecting the store and the connection: a persisted-preference
write (e.g. via the `save-settings` IPC handler), or a successful WebSocket
(re)connection (`open` event). -/
inductive AppEvent
  | storeWrite (k v : String)
  | wsOpenEvent
deriving DecidableEq

structure AppState where
  store : Store
  /-- The payloads POSTed to `/settings/sync-frontend`, in order. -/
  syncs : List SettingsData
deriving DecidableEq

def stepApp (s : AppState) (e : AppEvent) : AppState :=
  match e with
  | .storeWrite k v => { s with store := storeSet s.store k v }
  | .wsOpenEvent => { s with syncs := s.syncs ++ [settingsDataOf s.store] }

def runApp (init : Store) (events : List AppEvent) : AppState :=
  events.foldl stepApp { store := init, syncs := [] }

def countOpens (events : List AppEvent) : Nat :=
  events.countP (fun e => match e with | .wsOpenEvent => true | _ => false)

/-! ## Model switch workflow (`SettingsManager.saveSettingsInternal` /
`downloadAndSwitchModel`)

The model-changed branch of `saveSettingsInternal` checks availability with
`POST /model/check`; when available it issues `POST /model/switch` directly;
otherwise it calls `downloadAndSwitchModel`, which starts the download and
polls `GET /model/progress` until a successful poll reports
`status === 'completed'` or `progress >= 100` (then switches) or
`status === 'failed'`.  A successful switch writes the new model name to
`localStorage` and to the electron store via the `save-settings` IPC call. -/

structure CheckResp where
  success : Bool
  available : Bool
deriving DecidableEq

structure BoolResp where
  success : Bool
deriving DecidableEq

structure ProgressResp where
  success : Bool
  progress : Nat
  status : String
deriving DecidableEq

inductive WPhase
  | checking
  | downloading
  | switching
  | done
  | failed
deriving DecidableEq

/-- `status === 'completed' || progress >= 100`, the poll condition that
triggers the switch call. -/
def progressDone (p : ProgressResp) : Bool :=
  p.status == "completed" || decide (100 ≤ p.progress)

/-- The backend's responses for one workflow run: the check call, the
download-start call, the successive progress polls, and the switch call. -/
structure Backend where
  check : CheckResp
  download : BoolResp
  progresses : List ProgressResp
  switchResp : BoolResp
deriving DecidableEq

/-- The polling loop of `downloadAndSwitchModel`: phases entered after
Downloading, the electron-store model written on success, and the terminal
phase (`none` while the poll list is exhausted without a terminating poll —
the interval keeps running). -/
def pollDownload (target : String) :
    List ProgressResp → BoolResp → List WPhase × Option String × Option WPhase
  | [], _ => ([], none, none)
  | p :: rest, sw =>
      if p.success then
        if progressDone p then
          if sw.success then
            ([WPhase.switching, WPhase.done], some target, some WPhase.done)
          else
            ([WPhase.switching, WPhase.failed], none, some WPhase.failed)
        else if p.status == "failed" then
          ([WPhase.failed], none, some WPhase.failed)
        else pollDownload target rest sw
      else pollDownload target rest sw

structure WorkflowOutcome where
  phases : List WPhase
  /-- `localStorage['jarvis-ai-model']` after the run; `saveSettingsInternal`
  writes the selected model there unconditionally before the workflow. -/
  localStorageModel : String
  /-- The model written to the electron store through `save-settings`, done
  only after a successful switch call. -/
  electronStoreModel : Option String
  terminal : Option WPhase
deriving DecidableEq

/-- The model-changed branch of `saveSettingsInternal` for target model
`target`, driven by the backend's responses. -/
def runModelSwitch (b : Backend) (target : String) : WorkflowOutcome :=
  if b.check.success = false then
    { phases := [WPhase.checking, WPhase.failed]
      localStorageModel := target
      electronStoreModel := none
      terminal := some WPhase.failed }
  else if b.check.available then
    if b.switchResp.success then
      { phases := [WPhase.checking, WPhase.switching, WPhase.done]
        localStorageModel := target
        electronStoreModel := some target
        terminal := some WPhase.done }
    else
      { phases := [WPhase.checking, WPhase.switching, WPhase.failed]
        localStorageModel := target
        electronStoreModel := none
        terminal := some WPhase.failed }
  else if b.download.success = false then
    { phases := [WPhase.checking, WPhase.downloading, WPhase.failed]
      localStorageModel := target
      electronStoreModel := none
      terminal := some WPhase.failed }
  else
    let r := pollDownload target b.progresses b.switchResp
    { phases := [WPhase.checking, WPhase.downloading] ++ r.1
      localStorageModel := target
      electronStoreModel := r.2.1
      terminal := r.2.2 }

/-- Whether a frame parses with `type === 'chat_response'`. -/
def isChatResponseFrame : InFrame → Bool
  | .valid ty _ _ => ty == "chat_response"
  | .malformed _ => false

/-! ## Theorems settling the claims -/

/-- C1: if the sidecar port file exists and is read after the fixed
post-spawn grace delay, its parsed value overwrites the in-memory port,
including a port previously picked up from the stdout pattern
`Auto-selected port: N`; the file's value is authoritative whenever the read
succeeds. -/
theorem sidecar_file_read_overrides_port (es : List PortEvent)
    (chunk content : String) (n : Nat)
    (hmatch : extractAutoSelectedPort chunk = some n) :
    runPortDiscovery (es ++ [PortEvent.stdoutData chunk]) = some (n : Int) ∧
    runPortDiscovery
        (es ++ [PortEvent.stdoutData chunk, PortEvent.sidecarRead (some content)])
      = parseSidecarPort content := by
  constructor
  · rw [runPortDiscovery, List.foldl_append]
    simp [applyPortEvent, hmatch]
  · have hsplit :
        es ++ [PortEvent.stdoutData chunk, PortEvent.sidecarRead (some content)]
          = (es ++ [PortEvent.stdoutData chunk]) ++ [PortEvent.sidecarRead (some content)] := by
      simp
    rw [hsplit, runPortDiscovery, List.foldl_append]
    rfl

/-- Witness for C1: the stdout pattern sets port 8123, then the sidecar read
of a file containing `9200` overrides it. -/
theorem sidecar_file_read_overrides_port_witness :
    runPortDiscovery ([] ++ [PortEvent.stdoutData "Auto-selected port: 8123"])
      = some 8123 ∧
    runPortDiscovery
        ([] ++ [PortEvent.stdoutData "Auto-selected port: 8123",
                PortEvent.sidecarRead (some "9200")])
      = some 9200 :=
  ⟨(sidecar_file_read_overrides_port [] "Auto-selected port: 8123" "9200" 8123 (by decide)).1,
   ((sidecar_file_read_overrides_port [] "Auto-selected port: 8123" "9200" 8123 (by decide)).2).trans
     (by decide)⟩

/-- C10: if the sidecar port file exists but its content does not parse as
an integer, the in-memory port becomes `NaN` (modelled as `none`): the
`parseInt` result is assigned without validation, discarding any previously
discovered port. -/
theorem sidecar_unparsable_sets_port_nan (es : List PortEvent) (content : String)
    (h : parseSidecarPort content = none) :
    runPortDiscovery (es ++ [PortEvent.sidecarRead (some content)]) = none := by
  rw [runPortDiscovery, List.foldl_append]
  exact h

/-- Witness for C10: port 8123 was discovered from stdout, then the sidecar
file contains `abc`; the in-memory port ends up `NaN`. -/
theorem sidecar_unparsable_sets_port_nan_witness :
    parseSidecarPort "abc" = none ∧
    runPortDiscovery ([PortEvent.stdoutData "Auto-selected port: 8123"]
        ++ [PortEvent.sidecarRead (some "abc")]) = none :=
  ⟨by decide,
   sidecar_unparsable_sets_port_nan [PortEvent.stdoutData "Auto-selected port: 8123"] "abc"
     (by decide)⟩

/-- C2 (code bug): `cleanup()` sends SIGTERM, but the escalation to SIGKILL
never happens.  The synchronous part of `cleanup` sets `pythonProcess = null`
before returning, so when the 5-second force-kill timer fires, its
`pythonProcess && !pythonProcess.killed` check reads `null` and does nothing
(independently, Node marks the handle `killed` as soon as SIGTERM is sent,
so the check would fail even without the nulling).  For every starting state
with a live process — in particular one that never exits — the complete
signal sequence is `["SIGTERM"]`, with no SIGKILL. -/
theorem cleanup_never_sends_sigkill (p : ProcHandle) (w : Bool) :
    cleanupSequence { pythonProcess := some p, wsSome := w, signalsSent := [] }
      = { pythonProcess := none, wsSome := false, signalsSent := ["SIGTERM"] } :=
  rfl

/-- C3: when the backend entry-point script is missing, `start()` returns
`false`, no process handle is created (`pythonProcess` stays null, `spawn`
is never reached), and the body does not even raise an exception (it takes
the early `return false`), so nothing escapes to the caller. -/
theorem start_missing_script_returns_false (env : SpawnEnv)
    (h : env.scriptExists = false) :
    startBackendBody env = Except.ok (false, none) ∧
    startPythonBackend env = (false, none) := by
  constructor
  · simp [startBackendBody, h]
  · simp [startPythonBackend, startBackendBody, h]

/-- Witness for C3: a concrete environment with the script absent. -/
theorem start_missing_script_returns_false_witness :
    startBackendBody { scriptExists := false, spawnResult := Except.ok { killed := false } }
      = Except.ok (false, none) ∧
    startPythonBackend { scriptExists := false, spawnResult := Except.ok { killed := false } }
      = (false, none) :=
  start_missing_script_returns_false _ rfl

/-- C4: `sendToPython` invoked with no open session (the WebSocket is null
or its readyState is not OPEN) rejects immediately with the
`WebSocket not connected` error: no frame is transmitted and no timeout is
armed. -/
theorem send_not_connected_rejects_immediately (ws : Option ReadyState)
    (messageId msg ts : String)
    (h : ws = none ∨ ∀ st, ws = some st → st ≠ ReadyState.OPEN) :
    sendToPythonSetup ws messageId msg ts
      = { rejectedWith := some "WebSocket not connected"
          framesSent := []
          timerArmed := false } := by
  cases ws with
  | none => rfl
  | some st =>
      rcases h with h | h
      · exact absurd h (by simp)
      · have hne := h st rfl
        simp [sendToPythonSetup, hne]

/-- Witness for C4: a send with `ws` null. -/
theorem send_not_connected_rejects_immediately_witness :
    sendToPythonSetup none "1700000000000" "hello" "2024-01-01T00:00:00.000Z"
      = { rejectedWith := some "WebSocket not connected"
          framesSent := []
          timerArmed := false } :=
  send_not_connected_rejects_immediately none "1700000000000" "hello"
    "2024-01-01T00:00:00.000Z" (Or.inl rfl)

/-- C5 counterexample: a single unparseable frame arrives 10 ms after the
send.  No frame of type `chat_response` ever arrives, yet the pending
request does not fail with the timeout error: the response handler's catch
rejects it with the JSON parse error (and clears the timeout). -/
theorem chat_timeout_counterexample :
    (∀ e ∈ [((10 : Nat), InFrame.malformed "not json")],
        isChatResponseFrame e.2 = false) ∧
    promiseOutcome [((10 : Nat), InFrame.malformed "not json")]
      = some (Settle.parseError "not json") ∧
    promiseOutcome [((10 : Nat), InFrame.malformed "not json")]
      ≠ some Settle.timeout := by
  decide

/-- C5 (amended): for every chat send over an open session, if no inbound
frame of type `chat_response` *and no unparseable frame* arrives before the
fixed 30-second deadline, the pending request fails with the timeout error
exactly once: the timer's rejection is the first settle attempt, and a
promise adopts only its first settlement (an unparseable frame before the
deadline instead rejects the request with the JSON parse error). -/
theorem chat_timeout_fires_exactly_once (events : List (Nat × InFrame))
    (h : ∀ f ∈ framesBefore events, handlerReacts f = false) :
    settleAttempts events ≠ [] ∧
    promiseOutcome events = some Settle.timeout := by
  have hfind : (framesBefore events).find? handlerReacts = none := by
    refine List.find?_eq_none.mpr fun x hx => ?_
    simp [h x hx]
  constructor
  · simp [settleAttempts, hfind]
  · simp [promiseOutcome, settleAttempts, hfind]

/-- Witness for C5 (amended): one non-chat frame before the deadline and a
chat response arriving only after it; the promise settles with the timeout
rejection. -/
theorem chat_timeout_fires_exactly_once_witness :
    promiseOutcome [((10 : Nat), InFrame.valid "status" "1" "p"),
                    ((40000 : Nat), InFrame.valid "chat_response" "1" "late")]
      = some Settle.timeout :=
  (chat_timeout_fires_exactly_once
      [((10 : Nat), InFrame.valid "status" "1" "p"),
       ((40000 : Nat), InFrame.valid "chat_response" "1" "late")]
      (by decide)).2

/-- C6: a pending chat request is satisfied by the first inbound frame whose
type is `chat_response`, regardless of the correlation id that frame
carries: the outbound frame carries the freshly generated request id, yet a
reply with any different id still resolves the request (the handler never
consults the id). -/
theorem chat_reply_id_never_checked (requestId replyId payload msg ts : String)
    (t : Nat) (pre post : List (Nat × InFrame))
    (hid : replyId ≠ requestId)
    (hpre : ∀ f ∈ framesBefore pre, handlerReacts f = false)
    (ht : t < 30000) :
    (sendToPythonSetup (some ReadyState.OPEN) requestId msg ts).framesSent
      = [{ id := requestId, type := "chat", message := msg, timestamp := ts }] ∧
    promiseOutcome (pre ++ (t, InFrame.valid "chat_response" replyId payload) :: post)
      = some (Settle.response "chat_response" replyId payload) := by
  constructor
  · rfl
  · have hnone :
        ((pre.filter fun e => decide (e.1 < 30000)).map Prod.snd).find? handlerReacts
          = none := by
      refine List.find?_eq_none.mpr fun x hx => ?_
      simp [hpre x (by simpa [framesBefore] using hx)]
    have hfind :
        (framesBefore (pre ++ (t, InFrame.valid "chat_response" replyId payload) :: post)).find?
            handlerReacts
          = some (InFrame.valid "chat_response" replyId payload) := by
      have hcons : List.filter (fun e => decide (e.1 < 30000))
            ((t, InFrame.valid "chat_response" replyId payload) :: post)
          = (t, InFrame.valid "chat_response" replyId payload)
              :: List.filter (fun e => decide (e.1 < 30000)) post := by
        simp [List.filter_cons, ht]
      rw [framesBefore, List.filter_append, List.map_append, List.find?_append, hnone,
        Option.none_or, hcons, List.map_cons,
        List.find?_cons_of_pos _
          (show handlerReacts (InFrame.valid "chat_response" replyId payload) = true from
            by simp [handlerReacts])]
    simp [promiseOutcome, settleAttempts, hfind, settleOf]

/-- Witness for C6: the request carries id `12345`; the only inbound frame
is a chat response carrying id `999`, which resolves the request. -/
theorem chat_reply_id_never_checked_witness :
    (sendToPythonSetup (some ReadyState.OPEN) "12345" "hello" "ts").framesSent
      = [{ id := "12345", type := "chat", message := "hello", timestamp := "ts" }] ∧
    promiseOutcome ([] ++ ((5 : Nat), InFrame.valid "chat_response" "999" "hi") :: [])
      = some (Settle.response "chat_response" "999" "hi") :=
  chat_reply_id_never_checked "12345" "999" "hi" "hello" "ts" 5 [] []
    (by decide) (by decide) (by decide)

/-- Auxiliary: folding the app events adds one sync per `open` event. -/
theorem syncs_length_foldl (es : List AppEvent) :
    ∀ s : AppState, ((es.foldl stepApp s).syncs).length = s.syncs.length + countOpens es := by
  induction es with
  | nil => intro s; simp [countOpens]
  | cons e rest ih =>
      intro s
      cases e with
      | storeWrite k v =>
          simp only [List.foldl_cons, stepApp]
          rw [ih]
          simp [countOpens, List.countP_cons]
      | wsOpenEvent =>
          simp only [List.foldl_cons, stepApp]
          rw [ih]
          simp [countOpens, List.countP_cons]
          omega

/-- C7: on every successful (re)connection (each WebSocket `open` event) a
settings sync is attempted — the number of sync POSTs equals the number of
`open` events — and the Preference Set POSTed is built from the persistent
store as it stands at that connection (after all earlier writes), not from a
snapshot captured at process start. -/
theorem settings_sync_on_every_open (init : Store) (es : List AppEvent) :
    (runApp init (es ++ [AppEvent.wsOpenEvent])).syncs
      = (runApp init es).syncs ++ [settingsDataOf (runApp init es).store] ∧
    (runApp init es).syncs.length = countOpens es := by
  constructor
  · rw [runApp, List.foldl_append]
    rfl
  · rw [runApp, syncs_length_foldl]
    simp

/-- Helper for C8: while every successful poll reports neither completion
(`status = 'completed'` or `progress ≥ 100`) nor failure, the polling loop
just keeps polling. -/
theorem pollDownload_skips (target : String) (sw : BoolResp)
    (pre : List ProgressResp) (p : ProgressResp) (rest : List ProgressResp)
    (hpre : ∀ q ∈ pre, q.success = true →
        (progressDone q = false ∧ (q.status == "failed") = false)) :
    pollDownload target (pre ++ p :: rest) sw = pollDownload target (p :: rest) sw := by
  induction pre with
  | nil => rfl
  | cons q qs ih =>
      by_cases hs : q.success = true
      · obtain ⟨h1, h2⟩ := hpre q (by simp) hs
        rw [List.cons_append, pollDownload]
        simp only [hs, if_true, h1, Bool.false_eq_true, if_false, h2]
        exact ih fun r hr hrs => hpre r (by simp [hr]) hrs
      · rw [List.cons_append, pollDownload]
        simp only [hs, if_false]
        exact ih fun r hr hrs => hpre r (by simp [hr]) hrs

/-- C8: in the model switch workflow, `available = true` from the check call
leads straight to the switch call with no download phase; `available = false`
enters the download phase, and the first successful poll reporting
completion (`progress ≥ 100` or `status = 'completed'`) triggers the switch
call, after which a successful switch persists the new selection to the
electron store and terminates in Done. -/
theorem model_switch_workflow (b : Backend) (target : String)
    (pre rest : List ProgressResp) (pd : ProgressResp) :
    (b.check.success = true → b.check.available = true →
       (WPhase.downloading ∉ (runModelSwitch b target).phases ∧
        WPhase.switching ∈ (runModelSwitch b target).phases ∧
        (b.switchResp.success = true →
           (runModelSwitch b target).electronStoreModel = some target ∧
           (runModelSwitch b target).terminal = some WPhase.done))) ∧
    (b.check.success = true → b.check.available = false → b.download.success = true →
       (WPhase.downloading ∈ (runModelSwitch b target).phases ∧
        (b.progresses = pre ++ pd :: rest →
         (∀ q ∈ pre, q.success = true →
             (progressDone q = false ∧ (q.status == "failed") = false)) →
         pd.success = true → progressDone pd = true → b.switchResp.success = true →
           (WPhase.switching ∈ (runModelSwitch b target).phases ∧
            (runModelSwitch b target).electronStoreModel = some target ∧
            (runModelSwitch b target).terminal = some WPhase.done)))) := by
  constructor
  · intro h1 h2
    by_cases hsw : b.switchResp.success = true
    · refine ⟨?_, ?_, fun _ => ⟨?_, ?_⟩⟩ <;> simp [runModelSwitch, h1, h2, hsw]
    · refine ⟨?_, ?_, fun hc => absurd hc hsw⟩ <;> simp [runModelSwitch, h1, h2, hsw]
  · intro h1 h2 h3
    constructor
    · simp [runModelSwitch, h1, h2, h3]
    · intro hp hpre hpds hpd hsw
      have hpoll : pollDownload target b.progresses b.switchResp
          = ([WPhase.switching, WPhase.done], some target, some WPhase.done) := by
        rw [hp, pollDownload_skips target b.switchResp pre pd rest hpre, pollDownload]
        simp [hpds, hpd, hsw]
      refine ⟨?_, ?_, ?_⟩ <;> simp [runModelSwitch, h1, h2, h3, hpoll]

/-- Witness for C8: an available model switches directly (no download), and
an unavailable one downloads to 100% before switching; both runs persist the
selection and end in Done. -/
theorem model_switch_workflow_witness :
    (WPhase.downloading ∉
        (runModelSwitch ⟨⟨true, true⟩, ⟨true⟩, [], ⟨true⟩⟩ "model-x").phases ∧
     (runModelSwitch ⟨⟨true, true⟩, ⟨true⟩, [], ⟨true⟩⟩ "model-x").terminal
        = some WPhase.done) ∧
    (WPhase.downloading ∈
        (runModelSwitch ⟨⟨true, false⟩, ⟨true⟩,
            [⟨true, 40, "downloading"⟩, ⟨true, 100, "downloading"⟩], ⟨true⟩⟩
          "model-x").phases ∧
     (runModelSwitch ⟨⟨true, false⟩, ⟨true⟩,
            [⟨true, 40, "downloading"⟩, ⟨true, 100, "downloading"⟩], ⟨true⟩⟩
          "model-x").electronStoreModel = some "model-x" ∧
     (runModelSwitch ⟨⟨true, false⟩, ⟨true⟩,
            [⟨true, 40, "downloading"⟩, ⟨true, 100, "downloading"⟩], ⟨true⟩⟩
          "model-x").terminal = some WPhase.done) := by
  have hA := (model_switch_workflow ⟨⟨true, true⟩, ⟨true⟩, [], ⟨true⟩⟩ "model-x"
      [] [] ⟨true, 100, "downloading"⟩).1 rfl rfl
  have hB := (model_switch_workflow ⟨⟨true, false⟩, ⟨true⟩,
      [⟨true, 40, "downloading"⟩, ⟨true, 100, "downloading"⟩], ⟨true⟩⟩ "model-x"
      [⟨true, 40, "downloading"⟩] [] ⟨true, 100, "downloading"⟩).2 rfl rfl rfl
  have hB2 := hB.2 rfl (by decide) rfl (by decide) rfl
  exact ⟨⟨hA.1, (hA.2.2 rfl).2⟩, ⟨hB.1, hB2.2.1, hB2.2.2⟩⟩

/-- C9: on the `send-message` and `send-backend-request` IPC paths, every
error raised inside the handler — including a non-success HTTP status, which
the body turns into a thrown `HTTP <status>: <statusText>` — is caught at
the boundary and returned as a `{success: false, error}` result; the
handlers are total into `IpcReply`, so no exception propagates past them. -/
theorem ipc_boundary_catches_errors (inner : Except String String) (f : FetchOutcome) :
    (∀ m, inner = Except.error m → handleSendMessage inner = IpcReply.failure m) ∧
    (∀ st stx body, f = FetchOutcome.httpResponse false st stx body →
        handleSendBackendRequest f
          = IpcReply.failure ("HTTP " ++ toString st ++ ": " ++ stx)) ∧
    (∀ m, sendBackendRequestBody f = Except.error m →
        handleSendBackendRequest f = IpcReply.failure m) := by
  refine ⟨fun m hm => ?_, fun st stx body hf => ?_, fun m hm => ?_⟩
  · rw [hm]; rfl
  · subst hf
    simp [handleSendBackendRequest, sendBackendRequestBody]
  · rw [handleSendBackendRequest, hm]

/-- Witness for C9: a rejected send and a 500 response both come back as
failure results. -/
theorem ipc_boundary_catches_errors_witness :
    handleSendMessage (Except.error "Request timeout")
      = IpcReply.failure "Request timeout" ∧
    handleSendBackendRequest
        (FetchOutcome.httpResponse false 500 "Internal Server Error" (Except.ok "{}"))
      = IpcReply.failure "HTTP 500: Internal Server Error" :=
  ⟨(ipc_boundary_catches_errors (Except.error "Request timeout")
      (FetchOutcome.httpResponse false 500 "Internal Server Error" (Except.ok "{}"))).1
      "Request timeout" rfl,
   ((ipc_boundary_catches_errors (Except.error "Request timeout")
      (FetchOutcome.httpResponse false 500 "Internal Server Error" (Except.ok "{}"))).2.1
      500 "Internal Server Error" (Except.ok "{}") rfl).trans (by decide)⟩

end Jarvis
